import Mathlib

/-!
Shallow embedding of the MedTrack frontend fragments under verification:
the Firebase service-worker content generator (src/utils/firebase-sw-config.ts)
and the App bootstrap sequencer (App component effect).
-/

namespace MedTrack

/-- The six `VITE_FIREBASE_*` environment inputs; `none` models an unset
variable, `some s` a variable set to the string `s`. -/
structure ViteEnv where
  VITE_FIREBASE_API_KEY : Option String
  VITE_FIREBASE_AUTH_DOMAIN : Option String
  VITE_FIREBASE_PROJECT_ID : Option String
  VITE_FIREBASE_STORAGE_BUCKET : Option String
  VITE_FIREBASE_MESSAGING_SENDER_ID : Option String
  VITE_FIREBASE_APP_ID : Option String

/-- The config record returned by `getFirebaseServiceWorkerConfig`. -/
structure FirebaseConfig where
  apiKey : String
  authDomain : String
  projectId : String
  storageBucket : String
  messagingSenderId : String
  appId : String

/-- Embeds `getFirebaseServiceWorkerConfig`: each field is read from the
environment with `|| ''` defaulting (for a string-or-undefined value,
`x || ''` returns `x` when `x` is a non-empty string and `''` otherwise,
which coincides with `Option.getD` here since `'' || ''` is `''`). -/
def getFirebaseServiceWorkerConfig (env : ViteEnv) : FirebaseConfig :=
  { apiKey := env.VITE_FIREBASE_API_KEY.getD ""
    authDomain := env.VITE_FIREBASE_AUTH_DOMAIN.getD ""
    projectId := env.VITE_FIREBASE_PROJECT_ID.getD ""
    storageBucket := env.VITE_FIREBASE_STORAGE_BUCKET.getD ""
    messagingSenderId := env.VITE_FIREBASE_MESSAGING_SENDER_ID.getD ""
    appId := env.VITE_FIREBASE_APP_ID.getD "" }

/-- Embeds the local `hasValidConfig = config.apiKey && config.projectId &&
config.messagingSenderId`: a JavaScript string is truthy iff non-empty. -/
def hasValidConfig (config : FirebaseConfig) : Bool :=
  (config.apiKey != "") && (config.projectId != "") && (config.messagingSenderId != "")

/-- First fixed importScripts statement of the valid branch. -/
def importScriptsLine1 : String :=
  "importScripts(\x27https://www.gstatic.com/firebasejs/10.7.1/firebase-app-compat.js\x27);"

/-- Second fixed importScripts statement of the valid branch. -/
def importScriptsLine2 : String :=
  "importScripts(\x27https://www.gstatic.com/firebasejs/10.7.1/firebase-messaging-compat.js\x27);"

/-- The `const firebaseConfig = { ... }` object literal of the valid branch,
with the six configuration values interpolated as string literals. -/
def firebaseConfigLiteral (config : FirebaseConfig) : String :=
  "const firebaseConfig = \x7b\n  apiKey: \"" ++ config.apiKey ++
  "\",\n  authDomain: \"" ++ config.authDomain ++
  "\",\n  projectId: \"" ++ config.projectId ++
  "\",\n  storageBucket: \"" ++ config.storageBucket ++
  "\",\n  messagingSenderId: \"" ++ config.messagingSenderId ++
  "\",\n  appId: \"" ++ config.appId ++ "\"\n\x7d;"

/-- The valid branch of the template (`hasValidConfig` truthy). -/
def swValidBranch (config : FirebaseConfig) : String :=
  "\n// Import Firebase scripts for service worker\n" ++ importScriptsLine1 ++ "\n" ++
  importScriptsLine2 ++ "\n\n// Firebase configuration\n" ++ firebaseConfigLiteral config

/-- The warning log line of the invalid branch. -/
def fcmDisabledWarnLine : String :=
  "console.warn(\x27🚧 Firebase configuration not available - FCM disabled\x27);"

/-- The null configuration placeholder of the invalid branch. -/
def nullConfigLine : String :=
  "const firebaseConfig = null;"

/-- The invalid (disabled stand-in) branch of the template. -/
def swInvalidBranch : String :=
  "\n// Firebase configuration not available - FCM disabled in development\n" ++
  fcmDisabledWarnLine ++ "\n" ++ nullConfigLine

/-- The fixed header comment of the template. -/
def swHeader : String :=
  "/**\n * Firebase Cloud Messaging Service Worker for MedTrack\n * Handles FCM push notifications when app is closed or in background\n * Generated automatically during build process\n */\n\n"

/-- The unconditional fallback block (source lines 114-121): whenever
`messaging` was not initialized, install a stand-in whose
`onBackgroundMessage` is a warning-logging no-op. -/
def fallbackMessagingBlock : String :=
  "// Always create a fallback messaging object to prevent errors\nif (!messaging) \x7b\n  messaging = \x7b\n    onBackgroundMessage: () => \x7b\n      console.warn(\x27Firebase messaging not available - background push notifications disabled\x27);\n    \x7d\n  \x7d;\n\x7d"

/-- The final export assignment of the template. -/
def exportMessagingLine : String :=
  "self.firebaseMessaging = messaging;"

/-- First part of the shared tail: Firebase initialization and the start of
the background-message handler source text. -/
def swTailPreA : String :=
  "\n\n// Initialize Firebase in service worker\nlet messaging = null;\n\ntry \x7b\n  if (firebaseConfig && firebaseConfig.apiKey && firebaseConfig.projectId) \x7b\n    // Only initialize Firebase if we have valid configuration\n    firebase.initializeApp(firebaseConfig);\n    messaging = firebase.messaging();\n    \n    console.log(\x27🔥 Firebase messaging initialized in service worker\x27);\n\n    // Handle background push messages\n    messaging.onBackgroundMessage((payload) => \x7b\n      console.log(\x27📱 FCM background message received:\x27, payload);\n      \n      try \x7b\n        // Extract notification data\n        const notificationTitle = payload.notification?.title || \x27MedTrack Reminder\x27;\n        const notificationOptions = \x7b\n          body: payload.notification?.body || \x27Time for your medication\x27,\n"

/-- Second part of the shared tail: the notification options source text. -/
def swTailPreB : String :=
  "          icon: payload.notification?.icon || \x27/pill-icon.svg\x27,\n          badge: \x27/pill-icon.svg\x27,\n          data: \x7b\n            ...payload.data,\n            fcm: true,\n            timestamp: Date.now()\n          \x7d,\n          tag: payload.data?.medicationId ? \x60medication_$\x7bpayload.data.medicationId\x7d\x60 : \x27medtrack-fcm\x27,\n          requireInteraction: true,\n          actions: [\n            \x7b action: \x27take\x27, title: \x27✅ Taken\x27, icon: \x27/pill-icon.svg\x27 \x7d,\n            \x7b action: \x27snooze\x27, title: \x27⏰ Snooze 15min\x27, icon: \x27/pill-icon.svg\x27 \x7d,\n            \x7b action: \x27skip\x27, title: \x27⏸️ Skip\x27, icon: \x27/pill-icon.svg\x27 \x7d\n          ],\n          vibrate: [200, 100, 200],\n          silent: false,\n          renotify: true\n        \x7d;\n\n        // Show the notification\n"

/-- Third part of the shared tail: showNotification, handler fallback, and
the initialization catch. -/
def swTailPreC : String :=
  "        return self.registration.showNotification(notificationTitle, notificationOptions);\n        \n      \x7d catch (error) \x7b\n        console.error(\x27Failed to show FCM background notification:\x27, error);\n        \n        // Fallback notification\n        return self.registration.showNotification(\x27MedTrack Reminder\x27, \x7b\n          body: \x27Time for your medication\x27,\n          icon: \x27/pill-icon.svg\x27,\n          badge: \x27/pill-icon.svg\x27,\n          requireInteraction: true\n        \x7d);\n      \x7d\n    \x7d);\n\n    console.log(\x27✅ Firebase messaging service worker ready\x27);\n  \x7d else \x7b\n    console.warn(\x27⚠️ Firebase configuration incomplete - FCM disabled in development\x27);\n  \x7d\n\n\x7d catch (error) \x7b\n  console.error(\x27❌ Failed to initialize Firebase in service worker:\x27, error);\n\x7d\n\n"

/-- The shared tail of the template up to (excluding) the fallback block. -/
def swTailPre : String :=
  swTailPreA ++ swTailPreB ++ swTailPreC

/-- The full shared tail of the template (everything after the branch). -/
def swTail : String :=
  swTailPre ++ fallbackMessagingBlock ++
  "\n\n// Export messaging for potential use by main service worker\n" ++ exportMessagingLine

/-- Embeds `generateFirebaseServiceWorkerContent`: header, then the branch
selected by `hasValidConfig`, then the shared tail. -/
def generateFirebaseServiceWorkerContent (env : ViteEnv) : String :=
  let config := getFirebaseServiceWorkerConfig env
  swHeader ++
  (if hasValidConfig config then swValidBranch config else swInvalidBranch) ++
  swTail

/-- Substring relation on strings: `pat` occurs contiguously in `s`. -/
def ContainsSubstr (s pat : String) : Prop :=
  pat.data <:+: s.data

/-- Bool scan for an occurrence of `pat` inside `l`. -/
def listIncludes (pat : List Char) : List Char → Bool
  | [] => pat.isPrefixOf []
  | c :: cs => pat.isPrefixOf (c :: cs) || listIncludes pat cs

/-- Embeds the JavaScript `s.includes(pat)` substring test. -/
def includes (s pat : String) : Bool :=
  listIncludes pat.data s.data

theorem listIncludes_iff {pat l : List Char} : listIncludes pat l = true ↔ pat <:+: l := by
  induction l with
  | nil =>
      simp [listIncludes, List.isPrefixOf_iff_prefix]
  | cons c cs ih =>
      simp [listIncludes, List.isPrefixOf_iff_prefix, List.infix_cons_iff, ih]

theorem containsSubstr_iff_includes {s pat : String} :
    ContainsSubstr s pat ↔ includes s pat = true := by
  unfold ContainsSubstr includes
  exact listIncludes_iff.symm

theorem not_containsSubstr_of_includes_false {s pat : String}
    (h : includes s pat = false) : ¬ ContainsSubstr s pat := by
  intro hc
  rw [containsSubstr_iff_includes] at hc
  rw [h] at hc
  exact Bool.false_ne_true hc

theorem containsSubstr_append_right {s pat : String} (t : String)
    (h : ContainsSubstr s pat) : ContainsSubstr (s ++ t) pat := by
  obtain ⟨a, b, hab⟩ := h
  exact ⟨a, b ++ t.data, by rw [String.data_append, ← hab]; simp⟩

theorem containsSubstr_append_left {s pat : String} (t : String)
    (h : ContainsSubstr s pat) : ContainsSubstr (t ++ s) pat := by
  obtain ⟨a, b, hab⟩ := h
  exact ⟨t.data ++ a, b, by rw [String.data_append, ← hab]; simp⟩

theorem containsSubstr_refl (s : String) : ContainsSubstr s s :=
  ⟨[], [], by simp⟩

theorem isInfix_append_cases {p a b : List Char} (h : p <:+: a ++ b) :
    p <:+: a ++ b.take (p.length - 1) ∨ p <:+: b := by
  obtain ⟨s, t, hst⟩ := h
  by_cases hs : a.length ≤ s.length
  · right
    have ha : a <+: s :=
      List.prefix_of_prefix_length_le ⟨b, rfl⟩ ⟨p ++ t, by rw [← hst]; simp⟩ hs
    obtain ⟨s₂, rfl⟩ := ha
    refine ⟨s₂, t, ?_⟩
    have h' : a ++ (s₂ ++ p ++ t) = a ++ b := by
      rw [← hst]; simp
    exact List.append_cancel_left h'
  · left
    push_neg at hs
    cases p with
    | nil => exact ⟨[], a ++ b.take 0, by simp⟩
    | cons q qs =>
      have hpre : s ++ (q :: qs) <+: a ++ b := ⟨t, by rw [← hst]⟩
      have hmono : s ++ (q :: qs) <+: (a ++ b).take (a.length + ((q :: qs).length - 1)) := by
        have heq : s ++ (q :: qs) = (a ++ b).take (s.length + (q :: qs).length) := by
          have := List.prefix_iff_eq_take.mp hpre
          simpa using this
        rw [heq]
        exact List.take_prefix_take_left _ (by simp only [List.length_cons]; omega)
      have htake : (a ++ b).take (a.length + ((q :: qs).length - 1)) =
          a ++ b.take ((q :: qs).length - 1) := by
        rw [List.take_append_eq_append_take]
        simp
      rw [htake] at hmono
      obtain ⟨u, hu⟩ := hmono
      exact ⟨s, u, by rw [← hu]⟩

theorem not_isInfix_append {p a b : List Char}
    (h1 : listIncludes p (a ++ b.take (p.length - 1)) = false)
    (h2 : ¬ p <:+: b) : ¬ p <:+: a ++ b := by
  intro h
  rcases isInfix_append_cases h with h' | h'
  · have := listIncludes_iff.mpr h'
    rw [h1] at this
    exact Bool.false_ne_true this
  · exact h2 h'

theorem not_isInfix_of_listIncludes_false {p l : List Char}
    (h : listIncludes p l = false) : ¬ p <:+: l := by
  intro hc
  have := listIncludes_iff.mpr hc
  rw [h] at this
  exact Bool.false_ne_true this

/-- JavaScript `x || d` for an optional string `x`: the default is used when
`x` is absent (undefined) or empty (falsy). -/
def jsOrElse (x : Option String) (d : String) : String :=
  match x with
  | some s => if s == "" then d else s
  | none => d

/-- The `payload.notification` record of an FCM message; every field may be
absent. -/
structure FCMNotificationFields where
  title : Option String
  body : Option String
  icon : Option String

/-- The `payload.data` record of an FCM message (only the field the handler
reads). -/
structure FCMDataFields where
  medicationId : Option String

/-- An FCM background-message payload as read by the generated handler. -/
structure FCMPayload where
  notification : Option FCMNotificationFields
  data : Option FCMDataFields

/-- One entry of the `actions` array passed to `showNotification`. -/
structure NotificationAction where
  action : String
  title : String
  icon : String

/-- The merged `data` object of the displayed notification
(`...payload.data, fcm: true, timestamp: Date.now()`). -/
structure NotificationData where
  medicationId : Option String
  fcm : Bool
  timestamp : Nat

/-- The options object passed to `self.registration.showNotification`. -/
structure NotificationOptions where
  body : String
  icon : String
  badge : String
  data : NotificationData
  tag : String
  requireInteraction : Bool
  actions : List NotificationAction
  vibrate : List Nat
  silent : Bool
  renotify : Bool

/-- The notification displayed by the handler: title plus options. -/
structure ShownNotification where
  title : String
  options : NotificationOptions

/-- Embeds the background-message handler of the generated valid-branch
script (the arrow function passed to `messaging.onBackgroundMessage`).
`now` stands for `Date.now()`. JavaScript `a?.b || d` is `jsOrElse`, and the
ternary on `payload.data?.medicationId` takes its truthy branch exactly when
the field is present and non-empty. -/
def onBackgroundMessage (payload : FCMPayload) (now : Nat) : ShownNotification :=
  let notificationTitle :=
    jsOrElse (payload.notification.bind FCMNotificationFields.title) "MedTrack Reminder"
  let notificationOptions : NotificationOptions :=
    { body := jsOrElse (payload.notification.bind FCMNotificationFields.body) "Time for your medication"
      icon := jsOrElse (payload.notification.bind FCMNotificationFields.icon) "/pill-icon.svg"
      badge := "/pill-icon.svg"
      data := { medicationId := payload.data.bind FCMDataFields.medicationId
                fcm := true
                timestamp := now }
      tag := match payload.data.bind FCMDataFields.medicationId with
             | some id => if id == "" then "medtrack-fcm" else "medication_" ++ id
             | none => "medtrack-fcm"
      requireInteraction := true
      actions := [⟨"take", "✅ Taken", "/pill-icon.svg"⟩,
                  ⟨"snooze", "⏰ Snooze 15min", "/pill-icon.svg"⟩,
                  ⟨"skip", "⏸️ Skip", "/pill-icon.svg"⟩]
      vibrate := [200, 100, 200]
      silent := false
      renotify := true }
  { title := notificationTitle, options := notificationOptions }

/-- Observable events of the App bootstrap effect: console output and calls
into the collaborating services. -/
inductive Event where
  | log (msg : String)
  | warn (msg : String)
  | error (msg : String)
  | callInitialize
  | callSync
  | callMigrate
  | callDiagnose
  | callRecovery
  | callCheckMissed
deriving DecidableEq

/-- The record returned by `diagnoseIOSPWANotificationIssues` (only the
field the sequencer reads). -/
structure Diagnostic where
  coreIssue : String

/-- Outcomes of the external service calls and the relevant store state,
fixed per run: they determine the control flow of `initializeApp`. -/
structure BootstrapWorld where
  reminders : Nat
  medications : Nat
  initOk : Bool
  syncResult : Except Unit Bool
  migrateOk : Bool
  diagResult : Except Unit Diagnostic
  recoveryOk : Bool

/-- The catch handler of the backend-sync try block. -/
def backendSyncCatch : List Event :=
  [Event.error "❌ Backend sync initialization failed:",
   Event.log "📱 Falling back to client-side notifications only"]

/-- Embeds the backend-sync try/catch (source lines 54-77): initialize, then
conditionally sync existing data; a rejection of either awaited call jumps
to the catch, which logs and continues. -/
def backendSyncStep (w : BootstrapWorld) : List Event :=
  [Event.log "🔄 Initializing backend sync service...", Event.callInitialize] ++
  if w.initOk then
    [Event.log "✅ Backend sync service initialized successfully"] ++
    if 0 < w.reminders ∨ 0 < w.medications then
      [Event.log "📤 Syncing existing data to backend...", Event.callSync] ++
      match w.syncResult with
      | Except.ok true => [Event.log "✅ Initial backend sync completed - iOS PWA notifications enabled"]
      | Except.ok false => [Event.warn "⚠️ Initial backend sync failed - using client-side only"]
      | Except.error _ => backendSyncCatch
    else []
  else backendSyncCatch

/-- Embeds the reminder-migration step (source lines 80-88): runs only when
both reminders and medications exist; its own try/catch logs failure. -/
def migrationStep (w : BootstrapWorld) : List Event :=
  if 0 < w.reminders ∧ 0 < w.medications then
    [Event.log "🔄 Starting iOS PWA reminder migration...", Event.callMigrate] ++
    if w.migrateOk then [Event.log "✅ iOS PWA reminder migration completed"]
    else [Event.error "❌ iOS PWA reminder migration failed:"]
  else []

/-- The catch handler of the diagnostic try block: log and fall back to the
standard missed-notification check. -/
def diagnosticCatch : List Event :=
  [Event.error "❌ Failed to run iOS PWA diagnostic:", Event.callCheckMissed]

/-- Embeds the diagnostic-and-recovery step (source lines 91-111): run the
diagnostic; on success branch into missed-dose recovery when `coreIssue`
contains the platform marker, then run the standard check; any rejection in
the try body falls back to the catch, which runs the standard check. -/
def diagnosticStep (w : BootstrapWorld) : List Event :=
  [Event.log "Running iOS PWA notification diagnostic and recovery...", Event.callDiagnose] ++
  match w.diagResult with
  | Except.error _ => diagnosticCatch
  | Except.ok d =>
    [Event.log "📊 iOS PWA Notification Diagnostic Results:"] ++
    if includes d.coreIssue "iOS Safari" then
      [Event.log "🍎 iOS PWA detected - implementing missed dose recovery system",
       Event.callRecovery] ++
      if w.recoveryOk then [Event.callCheckMissed] else diagnosticCatch
    else [Event.callCheckMissed]

/-- Embeds the async bootstrap task body `initializeApp` (source lines
43-112) as the trace of events it produces in the world `w`. -/
def initializeApp (w : BootstrapWorld) : List Event :=
  [Event.log "App loaded, initializing iOS PWA notification system..."] ++
  backendSyncStep w ++ migrationStep w ++ diagnosticStep w

/-- External occurrences driving the mounted App component: a 1ms clock
tick, a window-focus event, and the unmount (effect cleanup). -/
inductive Occ where
  | tick
  | focus
  | unmount
deriving DecidableEq

/-- State of the mounted App effect: current time, the pending `setTimeout`
fire time (none once fired or cleared), whether the focus listener is
registered, whether the bootstrap task body ran, and the event trace. -/
structure AppState where
  now : Nat
  timer : Option Nat
  focusHandler : Bool
  bodyRan : Bool
  trace : List Event

/-- State right after mount: `setTimeout(initializeApp, 1500)` is pending
and the focus listener is registered. -/
def mountState : AppState :=
  { now := 0, timer := some 1500, focusHandler := true, bodyRan := false, trace := [] }

/-- Events produced by the window-focus handler. -/
def focusEvents : List Event :=
  [Event.log "Window gained focus, checking for missed notifications",
   Event.callCheckMissed]

/-- One step of the event loop: a tick advances the clock and fires the
pending timer once due; a focus event runs the handler if registered; the
unmount cleanup clears the timer and removes the focus listener. -/
def stepOcc (w : BootstrapWorld) (s : AppState) : Occ → AppState
  | Occ.tick =>
    let n := s.now + 1
    match s.timer with
    | some ft =>
      if ft ≤ n then
        { s with now := n, timer := none, bodyRan := true, trace := s.trace ++ initializeApp w }
      else { s with now := n }
    | none => { s with now := n }
  | Occ.focus =>
    if s.focusHandler then { s with trace := s.trace ++ focusEvents } else s
  | Occ.unmount =>
    { s with timer := none, focusHandler := false }

/-- Run the mounted App effect against a sequence of occurrences. -/
def runApp (w : BootstrapWorld) (occs : List Occ) : AppState :=
  occs.foldl (stepOcc w) mountState

/-- Claim C1: for every assignment of the six environment inputs (each read
with defaulting to the empty string), the generator's validity predicate
holds iff apiKey, projectId, and messagingSenderId are all non-empty;
authDomain, storageBucket, and appId play no role in validity. -/
theorem C1_validity_iff_required_nonempty :
    (∀ env : ViteEnv,
      hasValidConfig (getFirebaseServiceWorkerConfig env) = true ↔
        (env.VITE_FIREBASE_API_KEY.getD "" ≠ "" ∧
         env.VITE_FIREBASE_PROJECT_ID.getD "" ≠ "" ∧
         env.VITE_FIREBASE_MESSAGING_SENDER_ID.getD "" ≠ "")) ∧
    (∀ env₁ env₂ : ViteEnv,
      env₁.VITE_FIREBASE_API_KEY = env₂.VITE_FIREBASE_API_KEY →
      env₁.VITE_FIREBASE_PROJECT_ID = env₂.VITE_FIREBASE_PROJECT_ID →
      env₁.VITE_FIREBASE_MESSAGING_SENDER_ID = env₂.VITE_FIREBASE_MESSAGING_SENDER_ID →
      hasValidConfig (getFirebaseServiceWorkerConfig env₁) =
        hasValidConfig (getFirebaseServiceWorkerConfig env₂)) := by
  constructor
  · intro env
    simp [hasValidConfig, getFirebaseServiceWorkerConfig, and_assoc]
  · intro env₁ env₂ h1 h2 h3
    cases env₁
    cases env₂
    simp only at h1 h2 h3
    simp [hasValidConfig, getFirebaseServiceWorkerConfig, h1, h2, h3]

/-- Witness for C1 at concrete inputs: two environments agreeing on the
three required fields but differing elsewhere get the same validity. -/
theorem C1_witness :
    hasValidConfig (getFirebaseServiceWorkerConfig
      ⟨some "k", some "d", some "p", none, some "s", some "a"⟩) =
    hasValidConfig (getFirebaseServiceWorkerConfig
      ⟨some "k", none, some "p", some "b", some "s", none⟩) :=
  C1_validity_iff_required_nonempty.2 _ _ rfl rfl rfl

/-- Claim C8: the generator is deterministic and pure; two calls with
identical environment values return identical output strings (purity holds
by construction: the embedding is a total function on the environment). -/
theorem C8_generator_deterministic (env₁ env₂ : ViteEnv)
    (h1 : env₁.VITE_FIREBASE_API_KEY = env₂.VITE_FIREBASE_API_KEY)
    (h2 : env₁.VITE_FIREBASE_AUTH_DOMAIN = env₂.VITE_FIREBASE_AUTH_DOMAIN)
    (h3 : env₁.VITE_FIREBASE_PROJECT_ID = env₂.VITE_FIREBASE_PROJECT_ID)
    (h4 : env₁.VITE_FIREBASE_STORAGE_BUCKET = env₂.VITE_FIREBASE_STORAGE_BUCKET)
    (h5 : env₁.VITE_FIREBASE_MESSAGING_SENDER_ID = env₂.VITE_FIREBASE_MESSAGING_SENDER_ID)
    (h6 : env₁.VITE_FIREBASE_APP_ID = env₂.VITE_FIREBASE_APP_ID) :
    generateFirebaseServiceWorkerContent env₁ = generateFirebaseServiceWorkerContent env₂ := by
  cases env₁
  cases env₂
  simp only at h1 h2 h3 h4 h5 h6
  rw [h1, h2, h3, h4, h5, h6]

/-- Witness for C8 at a concrete input. -/
theorem C8_witness :
    generateFirebaseServiceWorkerContent ⟨some "k", none, some "p", none, some "s", none⟩ =
    generateFirebaseServiceWorkerContent ⟨some "k", none, some "p", none, some "s", none⟩ :=
  C8_generator_deterministic _ _ rfl rfl rfl rfl rfl rfl

/-- Claim C10: every output, valid or invalid, contains the unconditional
fallback block installing the non-null warning-logging stand-in messaging
object, and the assignment of that object to `self.firebaseMessaging`. -/
theorem C10_fallback_block_in_every_output (env : ViteEnv) :
    ContainsSubstr (generateFirebaseServiceWorkerContent env) fallbackMessagingBlock ∧
    ContainsSubstr (generateFirebaseServiceWorkerContent env) exportMessagingLine := by
  have hfb : ContainsSubstr swTail fallbackMessagingBlock := by
    unfold swTail
    exact containsSubstr_append_right _ (containsSubstr_append_right _
      (containsSubstr_append_left _ (containsSubstr_refl _)))
  have hex : ContainsSubstr swTail exportMessagingLine := by
    unfold swTail
    exact containsSubstr_append_left _ (containsSubstr_refl _)
  unfold generateFirebaseServiceWorkerContent
  exact ⟨containsSubstr_append_left _ hfb, containsSubstr_append_left _ hex⟩

set_option maxRecDepth 10000 in
/-- Helper for C2: the invalid-branch output contains no occurrence of
`importScripts` anywhere. -/
theorem invalid_output_no_importScripts :
    ¬ ContainsSubstr (swHeader ++ swInvalidBranch ++ swTail) "importScripts" := by
  unfold ContainsSubstr
  simp only [swInvalidBranch, swTail, swTailPre, String.data_append, List.append_assoc]
  refine not_isInfix_append (by decide) ?_
  refine not_isInfix_append (by decide) ?_
  refine not_isInfix_append (by decide) ?_
  refine not_isInfix_append (by decide) ?_
  refine not_isInfix_append (by decide) ?_
  refine not_isInfix_append (by decide) ?_
  refine not_isInfix_append (by decide) ?_
  refine not_isInfix_append (by decide) ?_
  refine not_isInfix_append (by decide) ?_
  refine not_isInfix_append (by decide) ?_
  exact not_isInfix_of_listIncludes_false (by decide)

/-- Claim C2: the output has exactly two mutually exclusive branches
selected by the validity predicate: a valid configuration yields both fixed
importScripts statements and the configuration object literal interpolating
all six values; an invalid (in particular empty) configuration yields the
disabled stand-in with its warning log and null configuration placeholder,
and no import statement occurs in the output. -/
theorem C2_output_branches (env : ViteEnv) :
    (hasValidConfig (getFirebaseServiceWorkerConfig env) = true →
      ContainsSubstr (generateFirebaseServiceWorkerContent env) importScriptsLine1 ∧
      ContainsSubstr (generateFirebaseServiceWorkerContent env) importScriptsLine2 ∧
      ContainsSubstr (generateFirebaseServiceWorkerContent env)
        (firebaseConfigLiteral (getFirebaseServiceWorkerConfig env))) ∧
    (hasValidConfig (getFirebaseServiceWorkerConfig env) = false →
      ContainsSubstr (generateFirebaseServiceWorkerContent env) fcmDisabledWarnLine ∧
      ContainsSubstr (generateFirebaseServiceWorkerContent env) nullConfigLine ∧
      ¬ ContainsSubstr (generateFirebaseServiceWorkerContent env) "importScripts") := by
  constructor
  · intro h
    have hout : generateFirebaseServiceWorkerContent env =
        swHeader ++ swValidBranch (getFirebaseServiceWorkerConfig env) ++ swTail := by
      unfold generateFirebaseServiceWorkerContent
      simp [h]
    rw [hout]
    refine ⟨?_, ?_, ?_⟩
    · exact containsSubstr_append_right _ (containsSubstr_append_left _ (by
        unfold swValidBranch
        exact containsSubstr_append_right _ (containsSubstr_append_right _
          (containsSubstr_append_right _ (containsSubstr_append_right _
            (containsSubstr_append_left _ (containsSubstr_refl _)))))))
    · exact containsSubstr_append_right _ (containsSubstr_append_left _ (by
        unfold swValidBranch
        exact containsSubstr_append_right _ (containsSubstr_append_right _
          (containsSubstr_append_left _ (containsSubstr_refl _)))))
    · exact containsSubstr_append_right _ (containsSubstr_append_left _ (by
        unfold swValidBranch
        exact containsSubstr_append_left _ (containsSubstr_refl _)))
  · intro h
    have hout : generateFirebaseServiceWorkerContent env =
        swHeader ++ swInvalidBranch ++ swTail := by
      unfold generateFirebaseServiceWorkerContent
      simp [h]
    rw [hout]
    refine ⟨?_, ?_, invalid_output_no_importScripts⟩
    · exact containsSubstr_append_right _ (containsSubstr_append_left _ (by
        unfold swInvalidBranch
        exact containsSubstr_append_right _ (containsSubstr_append_right _
          (containsSubstr_append_left _ (containsSubstr_refl _)))))
    · exact containsSubstr_append_right _ (containsSubstr_append_left _ (by
        unfold swInvalidBranch
        exact containsSubstr_append_left _ (containsSubstr_refl _)))

/-- Witness for C2: a fully populated environment takes the valid branch
(first import statement present); the empty environment takes the disabled
branch (no importScripts occurrence). -/
theorem C2_witness :
    ContainsSubstr (generateFirebaseServiceWorkerContent
      ⟨some "k", some "d", some "p", some "b", some "s", some "a"⟩) importScriptsLine1 ∧
    ¬ ContainsSubstr (generateFirebaseServiceWorkerContent
      ⟨none, none, none, none, none, none⟩) "importScripts" :=
  ⟨((C2_output_branches ⟨some "k", some "d", some "p", some "b", some "s", some "a"⟩).1 rfl).1,
   ((C2_output_branches ⟨none, none, none, none, none, none⟩).2 rfl).2.2⟩

/-- Claim C5 counterexample: the handler's icon is not fixed; a payload that
supplies `notification.icon` overrides it, so the displayed icon differs
from `/pill-icon.svg`. -/
theorem C5_counterexample :
    (onBackgroundMessage ⟨some ⟨none, none, some "/custom-icon.png"⟩, none⟩ 0).options.icon
      = "/custom-icon.png" ∧
    ¬ ((onBackgroundMessage ⟨some ⟨none, none, some "/custom-icon.png"⟩, none⟩ 0).options.icon
      = "/pill-icon.svg") :=
  ⟨rfl, by decide⟩

/-- Claim C5 amended: for every message, the badge is the fixed asset path
`/pill-icon.svg`; the icon is `/pill-icon.svg` only by default, namely when
the payload supplies no non-empty `notification.icon`, and otherwise equals
the payload-supplied icon. -/
theorem C5_badge_fixed_icon_defaulted (p : FCMPayload) (t : Nat) :
    (onBackgroundMessage p t).options.badge = "/pill-icon.svg" ∧
    (p.notification.bind FCMNotificationFields.icon = none ∨
     p.notification.bind FCMNotificationFields.icon = some "" →
      (onBackgroundMessage p t).options.icon = "/pill-icon.svg") ∧
    (∀ s, p.notification.bind FCMNotificationFields.icon = some s → s ≠ "" →
      (onBackgroundMessage p t).options.icon = s) := by
  refine ⟨rfl, ?_, ?_⟩
  · intro h
    rcases h with h | h <;> simp [onBackgroundMessage, jsOrElse, h]
  · intro s h hs
    simp [onBackgroundMessage, jsOrElse, h, hs]

/-- Witness for C5 at concrete inputs: default icon when none supplied,
payload icon when supplied. -/
theorem C5_witness :
    (onBackgroundMessage ⟨none, none⟩ 3).options.icon = "/pill-icon.svg" ∧
    (onBackgroundMessage ⟨some ⟨none, none, some "/x.svg"⟩, none⟩ 3).options.icon = "/x.svg" :=
  ⟨(C5_badge_fixed_icon_defaulted ⟨none, none⟩ 3).2.1 (Or.inl rfl),
   (C5_badge_fixed_icon_defaulted ⟨some ⟨none, none, some "/x.svg"⟩, none⟩ 3).2.2
     "/x.svg" rfl (by decide)⟩

/-- Claim C6 counterexample: a present but empty `data.medicationId` is
falsy in the ternary, so the tag is the generic `medtrack-fcm`, not
`medication_` followed by the identifier. -/
theorem C6_counterexample :
    (onBackgroundMessage ⟨none, some ⟨some ""⟩⟩ 0).options.tag = "medtrack-fcm" ∧
    ¬ ((onBackgroundMessage ⟨none, some ⟨some ""⟩⟩ 0).options.tag = "medication_" ++ "") :=
  ⟨rfl, by decide⟩

/-- Claim C6 amended: the tag is `medication_` followed by the identifier
exactly when `payload.data.medicationId` is present and non-empty (e.g.
`42` gives `medication_42`); when the field is absent or empty the tag is
the fixed generic `medtrack-fcm`. -/
theorem C6_tag_from_medicationId (p : FCMPayload) (t : Nat) :
    (∀ d id, p.data = some d → d.medicationId = some id → id ≠ "" →
      (onBackgroundMessage p t).options.tag = "medication_" ++ id) ∧
    (p.data.bind FCMDataFields.medicationId = none ∨
     p.data.bind FCMDataFields.medicationId = some "" →
      (onBackgroundMessage p t).options.tag = "medtrack-fcm") := by
  constructor
  · intro d id hd hid hne
    simp [onBackgroundMessage, hd, hid, hne]
  · intro h
    rcases h with h | h <;> simp [onBackgroundMessage, h]

/-- Witness for C6 at concrete inputs: identifier 42 yields medication_42;
an absent field yields medtrack-fcm. -/
theorem C6_witness :
    (onBackgroundMessage ⟨none, some ⟨some "42"⟩⟩ 0).options.tag = "medication_" ++ "42" ∧
    (onBackgroundMessage ⟨none, none⟩ 0).options.tag = "medtrack-fcm" :=
  ⟨(C6_tag_from_medicationId ⟨none, some ⟨some "42"⟩⟩ 0).1 ⟨some "42"⟩ "42" rfl rfl (by decide),
   (C6_tag_from_medicationId ⟨none, none⟩ 0).2 (Or.inl rfl)⟩

/-- Helper: the data-sync call never occurs in the migration step. -/
theorem callSync_not_mem_migrationStep (w : BootstrapWorld) :
    Event.callSync ∉ migrationStep w := by
  unfold migrationStep
  split
  · split <;> simp
  · simp

/-- Helper: the data-sync call never occurs in the diagnostic step. -/
theorem callSync_not_mem_diagnosticStep (w : BootstrapWorld) :
    Event.callSync ∉ diagnosticStep w := by
  unfold diagnosticStep
  split
  · simp [diagnosticCatch]
  · split
    · split <;> simp [diagnosticCatch]
    · simp

/-- Claim C9: when `backendSyncService.initialize()` rejects, the data-sync
call `syncUserDataToBackend` is never made in that run, even when local
reminders or medications exist: the sync lives inside the same error
boundary as initialization. -/
theorem C9_no_sync_on_init_failure (w : BootstrapWorld) (h : w.initOk = false) :
    Event.callSync ∉ initializeApp w := by
  unfold initializeApp backendSyncStep
  simp [h, backendSyncCatch, callSync_not_mem_migrationStep w, callSync_not_mem_diagnosticStep w]

/-- Witness for C9 at a concrete world with reminders and medications
present and a rejecting initialize. -/
theorem C9_witness :
    Event.callSync ∉ initializeApp ⟨1, 1, false, Except.ok true, true, Except.ok ⟨""⟩, true⟩ :=
  C9_no_sync_on_init_failure _ rfl

/-- Helper: only the unmount occurrence deregisters the focus listener. -/
theorem stepOcc_focusHandler (w : BootstrapWorld) (s : AppState) (o : Occ)
    (ho : o ≠ Occ.unmount) : (stepOcc w s o).focusHandler = s.focusHandler := by
  cases o with
  | tick =>
    dsimp [stepOcc]
    cases s.timer with
    | none => rfl
    | some ft => by_cases hf : ft ≤ s.now + 1 <;> simp [hf]
  | focus =>
    dsimp [stepOcc]
    by_cases hf : s.focusHandler <;> simp [hf]
  | unmount => exact absurd rfl ho

/-- Helper: the focus listener registered at mount stays registered along
any occurrence sequence without an unmount. -/
theorem focusHandler_preserved (w : BootstrapWorld) :
    ∀ (occs : List Occ) (s : AppState), Occ.unmount ∉ occs → s.focusHandler = true →
      (occs.foldl (stepOcc w) s).focusHandler = true := by
  intro occs
  induction occs with
  | nil => intro s _ hs; exact hs
  | cons o rest ih =>
    intro s hno hs
    rw [List.foldl_cons]
    have ho : o ≠ Occ.unmount := fun he => hno (he ▸ List.mem_cons_self _ _)
    exact ih _ (fun hm => hno (List.mem_cons_of_mem _ hm))
      ((stepOcc_focusHandler w s o ho).trans hs)

/-- Claim C3: when `backendSyncService.initialize()` rejects, the rejection
is caught and logged and the later steps still run: the reminder migration
when its own precondition holds, the notification diagnostic always, and
the focus listener remains registered for the whole pre-unmount lifetime. -/
theorem C3_later_steps_survive_init_failure (w : BootstrapWorld) (h : w.initOk = false) :
    Event.error "❌ Backend sync initialization failed:" ∈ initializeApp w ∧
    Event.log "📱 Falling back to client-side notifications only" ∈ initializeApp w ∧
    (0 < w.reminders ∧ 0 < w.medications → Event.callMigrate ∈ initializeApp w) ∧
    Event.callDiagnose ∈ initializeApp w ∧
    (∀ occs : List Occ, Occ.unmount ∉ occs → (runApp w occs).focusHandler = true) := by
  refine ⟨?_, ?_, ?_, ?_, ?_⟩
  · unfold initializeApp backendSyncStep
    simp [h, backendSyncCatch]
  · unfold initializeApp backendSyncStep
    simp [h, backendSyncCatch]
  · intro hp
    unfold initializeApp migrationStep
    simp [hp.1, hp.2]
  · unfold initializeApp diagnosticStep
    simp
  · intro occs hno
    exact focusHandler_preserved w occs mountState hno rfl

/-- Witness for C3 at a concrete world whose initialize rejects, with
reminders and medications present. -/
theorem C3_witness :
    Event.error "❌ Backend sync initialization failed:"
      ∈ initializeApp ⟨2, 3, false, Except.error (), true, Except.ok ⟨"fine"⟩, true⟩ ∧
    Event.callMigrate
      ∈ initializeApp ⟨2, 3, false, Except.error (), true, Except.ok ⟨"fine"⟩, true⟩ ∧
    (runApp ⟨2, 3, false, Except.error (), true, Except.ok ⟨"fine"⟩, true⟩
      [Occ.tick, Occ.focus]).focusHandler = true :=
  ⟨(C3_later_steps_survive_init_failure _ rfl).1,
   (C3_later_steps_survive_init_failure _ rfl).2.2.1 ⟨by decide, by decide⟩,
   (C3_later_steps_survive_init_failure _ rfl).2.2.2.2 [Occ.tick, Occ.focus] (by decide)⟩

/-- Helper: the missed-notification check never occurs in the backend-sync
step. -/
theorem checkMissed_not_mem_backendSyncStep (w : BootstrapWorld) :
    Event.callCheckMissed ∉ backendSyncStep w := by
  unfold backendSyncStep
  split
  · split
    · split <;> simp [backendSyncCatch]
    · simp
  · simp [backendSyncCatch]

/-- Helper: the missed-notification check never occurs in the migration
step. -/
theorem checkMissed_not_mem_migrationStep (w : BootstrapWorld) :
    Event.callCheckMissed ∉ migrationStep w := by
  unfold migrationStep
  split
  · split <;> simp
  · simp

/-- Helper: the recovery routine never occurs in the backend-sync step. -/
theorem recovery_not_mem_backendSyncStep (w : BootstrapWorld) :
    Event.callRecovery ∉ backendSyncStep w := by
  unfold backendSyncStep
  split
  · split
    · split <;> simp [backendSyncCatch]
    · simp
  · simp [backendSyncCatch]

/-- Helper: the recovery routine never occurs in the migration step. -/
theorem recovery_not_mem_migrationStep (w : BootstrapWorld) :
    Event.callRecovery ∉ migrationStep w := by
  unfold migrationStep
  split
  · split <;> simp
  · simp

/-- Helper: the diagnostic step runs the missed-notification check exactly
once, on the success path or through the catch fallback. -/
theorem count_checkMissed_diagnosticStep (w : BootstrapWorld) :
    (diagnosticStep w).count Event.callCheckMissed = 1 := by
  unfold diagnosticStep
  cases hd : w.diagResult with
  | error e => rfl
  | ok d =>
    by_cases hm : includes d.coreIssue "iOS Safari"
    · simp only [hm, if_true]
      cases hr : w.recoveryOk <;> rfl
    · simp only [hm, if_false]
      rfl

/-- Helper: the recovery routine occurs in the diagnostic step exactly when
the diagnostic succeeds and reports the platform marker. -/
theorem recovery_mem_diagnosticStep_iff (w : BootstrapWorld) :
    Event.callRecovery ∈ diagnosticStep w ↔
      ∃ d, w.diagResult = Except.ok d ∧ includes d.coreIssue "iOS Safari" = true := by
  unfold diagnosticStep
  cases hd : w.diagResult with
  | error e => simp [diagnosticCatch]
  | ok d =>
    by_cases hm : includes d.coreIssue "iOS Safari"
    · simp [hm]
    · cases hr : w.recoveryOk <;> simp [hm, diagnosticCatch]

/-- Claim C4: every run of the bootstrap body reaches the diagnostic step
and invokes `checkMissedNotifications` exactly once (after the diagnostic
and optional recovery on success, or through the catch fallback on a
rejection); the recovery routine `implementMissedDoseRecovery` is invoked
exactly when the diagnostic succeeds and its `coreIssue` contains the
platform marker. -/
theorem C4_checkMissed_once_and_recovery_iff (w : BootstrapWorld) :
    (initializeApp w).count Event.callCheckMissed = 1 ∧
    (Event.callRecovery ∈ initializeApp w ↔
      ∃ d, w.diagResult = Except.ok d ∧ includes d.coreIssue "iOS Safari" = true) := by
  constructor
  · unfold initializeApp
    rw [List.count_append, List.count_append, List.count_append]
    rw [List.count_eq_zero.mpr (checkMissed_not_mem_backendSyncStep w),
        List.count_eq_zero.mpr (checkMissed_not_mem_migrationStep w),
        count_checkMissed_diagnosticStep w]
    rfl
  · unfold initializeApp
    simp [List.mem_append, recovery_not_mem_backendSyncStep w,
          recovery_not_mem_migrationStep w, recovery_mem_diagnosticStep_iff w]

/-- Helper: once the timer is cleared and the focus listener removed, no
further occurrence changes the trace, the body flag, or those two fields. -/
theorem foldl_dead (w : BootstrapWorld) :
    ∀ (occs : List Occ) (s : AppState), s.timer = none → s.focusHandler = false →
      (occs.foldl (stepOcc w) s).trace = s.trace ∧
      (occs.foldl (stepOcc w) s).bodyRan = s.bodyRan ∧
      (occs.foldl (stepOcc w) s).timer = none ∧
      (occs.foldl (stepOcc w) s).focusHandler = false := by
  intro occs
  induction occs with
  | nil => intro s ht hf; exact ⟨rfl, rfl, ht, hf⟩
  | cons o rest ih =>
    intro s ht hf
    rw [List.foldl_cons]
    have hstep : (stepOcc w s o).trace = s.trace ∧ (stepOcc w s o).bodyRan = s.bodyRan ∧
        (stepOcc w s o).timer = none ∧ (stepOcc w s o).focusHandler = false := by
      cases o with
      | tick => simp [stepOcc, ht, hf]
      | focus => simp [stepOcc, ht, hf]
      | unmount => simp [stepOcc, ht, hf]
    obtain ⟨h1, h2, h3, h4⟩ := hstep
    obtain ⟨g1, g2, g3, g4⟩ := ih (stepOcc w s o) h3 h4
    exact ⟨g1.trans h1, g2.trans h2, g3, g4⟩

/-- Helper: along any occurrence sequence without an unmount, when the
ticks it contains do not reach the 1500ms deadline the pending timer never
fires: the timer stays pending, the body flag stays false, the clock
advances by exactly the tick count, and the trace only gains focus-handler
events. -/
theorem foldl_alive (w : BootstrapWorld) :
    ∀ (occs : List Occ) (s : AppState), Occ.unmount ∉ occs →
      s.timer = some 1500 → s.now + occs.count Occ.tick < 1500 → s.bodyRan = false →
      ((occs.foldl (stepOcc w) s).timer = some 1500 ∧
       (occs.foldl (stepOcc w) s).bodyRan = false ∧
       (occs.foldl (stepOcc w) s).now = s.now + occs.count Occ.tick ∧
       (∀ e, e ∈ (occs.foldl (stepOcc w) s).trace → e ∈ s.trace ∨ e ∈ focusEvents)) := by
  intro occs
  induction occs with
  | nil => intro s _ ht _ hb; exact ⟨ht, hb, by simp, fun e he => Or.inl he⟩
  | cons o rest ih =>
    intro s hno ht hcnt hb
    rw [List.foldl_cons]
    have hno' : Occ.unmount ∉ rest := fun hm => hno (List.mem_cons_of_mem _ hm)
    cases o with
    | tick =>
      have hcount : (Occ.tick :: rest).count Occ.tick = rest.count Occ.tick + 1 := by
        simp [List.count_cons]
      rw [hcount] at hcnt
      have hlt : ¬ (1500 ≤ s.now + 1) := by omega
      have hstep : stepOcc w s Occ.tick = { s with now := s.now + 1 } := by
        simp [stepOcc, ht, hlt]
      rw [hstep]
      obtain ⟨g1, g2, g3, g4⟩ := ih { s with now := s.now + 1 } hno' ht (by simp; omega) hb
      refine ⟨g1, g2, ?_, fun e he => g4 e he⟩
      rw [g3, hcount]
      simp
      omega
    | focus =>
      have hcount : (Occ.focus :: rest).count Occ.tick = rest.count Occ.tick := by
        simp [List.count_cons]
      rw [hcount] at hcnt
      by_cases hf : s.focusHandler
      · have hstep : stepOcc w s Occ.focus = { s with trace := s.trace ++ focusEvents } := by
          simp [stepOcc, hf]
        rw [hstep]
        obtain ⟨g1, g2, g3, g4⟩ :=
          ih { s with trace := s.trace ++ focusEvents } hno' ht (by simpa using hcnt) hb
        refine ⟨g1, g2, by rw [g3, hcount], fun e he => ?_⟩
        rcases g4 e he with hin | hin
        · simp only [List.mem_append] at hin
          exact hin
        · exact Or.inr hin
      · have hstep : stepOcc w s Occ.focus = s := by
          simp [stepOcc, hf]
        rw [hstep]
        obtain ⟨g1, g2, g3, g4⟩ := ih s hno' ht (by simpa using hcnt) hb
        exact ⟨g1, g2, by rw [g3, hcount], g4⟩
    | unmount => exact absurd (List.mem_cons_self _ _) hno

/-- Claim C7: if the component unmounts before the 1500ms delay elapses,
the bootstrap task body never runs: the teardown clears the pending timer
and removes the focus listener, the trace never changes after teardown, and
no body event (its opening console output or any of its service calls)
ever appears in the trace. -/
theorem C7_unmount_before_delay_cancels (w : BootstrapWorld) (pre post : List Occ)
    (hpre : Occ.unmount ∉ pre) (hticks : pre.count Occ.tick < 1500) :
    (runApp w (pre ++ Occ.unmount :: post)).bodyRan = false ∧
    (runApp w (pre ++ Occ.unmount :: post)).trace = (runApp w pre).trace ∧
    (runApp w (pre ++ Occ.unmount :: post)).timer = none ∧
    (runApp w (pre ++ Occ.unmount :: post)).focusHandler = false ∧
    Event.log "App loaded, initializing iOS PWA notification system..."
      ∉ (runApp w (pre ++ Occ.unmount :: post)).trace ∧
    Event.callInitialize ∉ (runApp w (pre ++ Occ.unmount :: post)).trace ∧
    Event.callDiagnose ∉ (runApp w (pre ++ Occ.unmount :: post)).trace := by
  obtain ⟨ht1, hb1, hn1, htr1⟩ :=
    foldl_alive w pre mountState hpre rfl (by simpa [mountState] using hticks) rfl
  have hrun : runApp w (pre ++ Occ.unmount :: post) =
      post.foldl (stepOcc w)
        { pre.foldl (stepOcc w) mountState with timer := none, focusHandler := false } := by
    unfold runApp
    rw [List.foldl_append, List.foldl_cons]
    rfl
  obtain ⟨d1, d2, d3, d4⟩ :=
    foldl_dead w post
      { pre.foldl (stepOcc w) mountState with timer := none, focusHandler := false } rfl rfl
  have htrace : (runApp w (pre ++ Occ.unmount :: post)).trace =
      (pre.foldl (stepOcc w) mountState).trace := by
    rw [hrun, d1]
  have hbody : (runApp w (pre ++ Occ.unmount :: post)).bodyRan = false := by
    rw [hrun, d2]
    exact hb1
  have hmem : ∀ e, e ∈ (runApp w (pre ++ Occ.unmount :: post)).trace → e ∈ focusEvents := by
    intro e he
    rw [htrace] at he
    rcases htr1 e he with hin | hin
    · simp [mountState] at hin
    · exact hin
  refine ⟨hbody, htrace, by rw [hrun]; exact d3, by rw [hrun]; exact d4, ?_, ?_, ?_⟩
  · intro hmem'
    have := hmem _ hmem'
    simp [focusEvents] at this
  · intro hmem'
    have := hmem _ hmem'
    simp [focusEvents] at this
  · intro hmem'
    have := hmem _ hmem'
    simp [focusEvents] at this

/-- Witness for C7 at a concrete run: two ticks and a focus event, then
unmount, then further ticks and focus events. -/
theorem C7_witness :
    (runApp ⟨0, 0, true, Except.ok true, true, Except.ok ⟨""⟩, true⟩
      ([Occ.tick, Occ.focus, Occ.tick] ++ Occ.unmount :: [Occ.tick, Occ.focus])).bodyRan
        = false ∧
    Event.callInitialize ∉
      (runApp ⟨0, 0, true, Except.ok true, true, Except.ok ⟨""⟩, true⟩
        ([Occ.tick, Occ.focus, Occ.tick] ++ Occ.unmount :: [Occ.tick, Occ.focus])).trace :=
  ⟨(C7_unmount_before_delay_cancels _ _ _ (by decide) (by decide)).1,
   (C7_unmount_before_delay_cancels _ _ _ (by decide) (by decide)).2.2.2.2.2.1⟩

end MedTrack
